import Mathlib

/-!
Shallow embedding of `src/testSuite.h` (the `TestSuite` extension to the JUCE
`UnitTest` system) together with proofs about its behaviour.

The suite side (`setup`, `tearDown`, `test`, `skipTest`) is modelled as a
state-and-trace semantics: a `std::function<void(void)>` is represented by the
list of observable events its invocation emits (`Fn := List Event`), the
suite's two handles `onSetup`/`onTearDown` are fields of a `TestSuite` record,
and every member function returns the updated suite together with the trace of
events it emits.

The command-line side (`runAllTests`) is modelled over the JUCE string
helpers that the source calls:

* `juce::StringArray::fromTokens (s, true)` splits on the whitespace
  characters space, LF, CR and TAB; quoted substrings (double or single
  quote) are kept together, with the quote characters remaining part of the
  token; every separator character ends a token, so two adjacent separators
  produce an empty token between them; an empty input yields no tokens.

* `juce::StringArray::indexOf` has the signature
  `indexOf (StringRef stringToLookFor, bool ignoreCase = false, int startIndex = 0)`,
  so the `true` that `runAllTests` passes as the second argument at every
  flag lookup makes each lookup CASE-INSENSITIVE. Case folding is modelled
  on ASCII letters, which covers every flag string used by the source.
  The JUCE value -1 for "not found" is modelled as `none`.

* `juce::String::getLargeIntValue` skips leading whitespace, reads an
  optional leading minus sign, then accumulates leading decimal digits
  (no digits gives 0). The `int64` wrap-around of the C++ version is not
  modelled; it is unreachable for values below 2^63.

* `juce::StringArray::operator[]` returns the empty string when the index
  is out of range (modelled with `List.getD`).

The two preprocessor switches `RUN_UNIT_TESTS` and `JUCE_DEBUG` become the
explicit boolean parameters `runUnitTests` and `juceDebug` of `runAllTests`.
-/

namespace TestSuiteSpec

/-- Observable events emitted by the suite member functions. -/
inductive Event where
  /-- `UnitTest::beginTest` — records the start of a named subtest. -/
  | beginTest (name : String)
  /-- An invocation of the user function whose identity is `id`. -/
  | call (id : Nat)
  /-- `UnitTest::logMessage` — one log line. -/
  | logMessage (msg : String)
deriving DecidableEq

/-- A `std::function<void(void)>` value, represented by the trace of
observable events one invocation of it emits. -/
abbrev Fn := List Event

/-- `TestSuite::noOp` — the default setup/tearDown function; does nothing,
so its invocation emits no events. -/
def noOp : Fn := []

/-- The state of a `TestSuite` object: its `UnitTest` name and category and
the two function handles. -/
structure TestSuite where
  name : String
  category : String
  onSetup : Fn
  onTearDown : Fn
deriving DecidableEq

/-- The `TestSuite` constructor: member initialisers set both handles
to `noOp`. -/
def mkTestSuite (name : String) (category : String) : TestSuite :=
  { name := name, category := category, onSetup := noOp, onTearDown := noOp }

/-- `TestSuite::setup` — `onSetup = setupFn;`. Emits no events. -/
def setup (setupFn : Fn) (s : TestSuite) : TestSuite × List Event :=
  ({ s with onSetup := setupFn }, [])

/-- `TestSuite::tearDown` — `onTearDown = tearDownFn;`. Emits no events. -/
def tearDown (tearDownFn : Fn) (s : TestSuite) : TestSuite × List Event :=
  ({ s with onTearDown := tearDownFn }, [])

/-- `TestSuite::test` — `beginTest(testName); onSetup(); testFn(); onTearDown();`. -/
def test (testName : String) (testFn : Fn) (s : TestSuite) : TestSuite × List Event :=
  (s, Event.beginTest testName :: (s.onSetup ++ testFn ++ s.onTearDown))

/-- The separator line logged by `TestSuite::skipTest`. -/
def separatorLine : String :=
  "-----------------------------------------------------------------"

/-- `TestSuite::skipTest` — logs a separator line and a warning naming the
suite and the subtest; the test function parameter is unused. -/
def skipTest (testName : String) (_testFn : Fn) (s : TestSuite) : TestSuite × List Event :=
  (s, [Event.logMessage separatorLine,
       Event.logMessage ("WARNING: Skipping " ++ s.name ++ " / " ++ testName)])

/-- One call a `runTest` body can make on its suite. -/
inductive Op where
  | setup (fn : Fn)
  | tearDown (fn : Fn)
  | test (name : String) (fn : Fn)
  | skipTest (name : String) (fn : Fn)

/-- Perform one operation on the suite. -/
def applyOp : Op → TestSuite → TestSuite × List Event
  | Op.setup fn, s => setup fn s
  | Op.tearDown fn, s => tearDown fn s
  | Op.test n fn, s => test n fn s
  | Op.skipTest n fn, s => skipTest n fn s

/-- Run a sequence of operations, threading the suite state and
concatenating the emitted traces. -/
def run : List Op → TestSuite → TestSuite × List Event
  | [], s => (s, [])
  | op :: ops, s =>
    let r := applyOp op s
    let r2 := run ops r.1
    (r2.1, r.2 ++ r2.2)

/-! ## The JUCE string helpers used by `runAllTests` -/

/-- The token-break characters of `StringArray::fromTokens`:
space, LF, CR, TAB. -/
def isTokenBreak (c : Char) : Bool :=
  c = Char.ofNat 32 || c = Char.ofNat 10 || c = Char.ofNat 13 || c = Char.ofNat 9

/-- The quote characters honoured by `StringArray::fromTokens (s, true)`:
double quote and single quote. -/
def isQuoteChar (c : Char) : Bool :=
  c = Char.ofNat 34 || c = Char.ofNat 39

/-- The tokenising loop of `StringArray::addTokens`: `quote` is the
currently open quote character (`none` when outside quotes), `acc` the
characters of the token built so far, in reverse. Each break character
found outside quotes ends one token; the end of the input ends the last
token. -/
def findTokens : List Char → Option Char → List Char → List String
  | [], _, acc => [String.mk acc.reverse]
  | c :: cs, none, acc =>
    if isTokenBreak c then
      String.mk acc.reverse :: findTokens cs none []
    else
      findTokens cs (if isQuoteChar c then some c else none) (c :: acc)
  | c :: cs, some q, acc =>
    findTokens cs (if c = q then none else some q) (c :: acc)

/-- `juce::StringArray::fromTokens (s, true)`: an empty input produces no
tokens at all; otherwise tokenise. -/
def fromTokens (s : String) : List String :=
  if s.data.isEmpty then [] else findTokens s.data none []

/-- ASCII lower-casing, modelling JUCE's case folding on the ASCII range
(sufficient for the all-ASCII flag strings). -/
def toLowerAscii (c : Char) : Char :=
  if 65 ≤ c.toNat && c.toNat ≤ 90 then Char.ofNat (c.toNat + 32) else c

/-- `juce::String::equalsIgnoreCase`, on the ASCII range. -/
def eqIgnoreCase (a b : String) : Bool :=
  a.data.map toLowerAscii == b.data.map toLowerAscii

/-- `juce::StringArray::indexOf (s, true)`: index of the first
case-insensitive match, `none` (JUCE: -1) if there is no match. -/
def indexOfCI : List String → String → Option Nat
  | [], _ => none
  | t :: ts, s =>
    if eqIgnoreCase t s then some 0 else (indexOfCI ts s).map (fun i => i + 1)

/-- `juce::CharacterFunctions::isWhitespace`: space, or code 9..13. -/
def isJuceWhitespace (c : Char) : Bool :=
  c = Char.ofNat 32 || (9 ≤ c.toNat && c.toNat ≤ 13)

/-- ASCII decimal digit test. -/
def isAsciiDigit (c : Char) : Bool :=
  48 ≤ c.toNat && c.toNat ≤ 57

/-- Accumulate the value of the leading run of decimal digits onto `v`;
the first non-digit stops the scan. -/
def leadingDigitsValue : List Char → Int → Int
  | [], v => v
  | c :: cs, v =>
    if isAsciiDigit c then leadingDigitsValue cs (v * 10 + ((c.toNat : Int) - 48)) else v

/-- `juce::String::getLargeIntValue`: skip leading whitespace, honour one
leading minus sign, then read the leading run of decimal digits (an empty
run gives 0). -/
def getLargeIntValue (s : String) : Int :=
  match s.data.dropWhile isJuceWhitespace with
  | [] => 0
  | c :: rest =>
    if c = '-' then -(leadingDigitsValue rest 0) else leadingDigitsValue (c :: rest) 0

/-! ## The flag strings of `TestSuite` -/

def QuitAfterTests : String := "--quitAfterTests"
def DisableTests : String := "--disableTests"
def EnableTests : String := "--enableTests"
def AssertOnFail : String := "--assertOnFail"
def ContinueOnFail : String := "--continueOnFail"
def LogPasses : String := "--logPasses"
def RandomSeed : String := "--randomTestSeed"

/-- The run configuration computed by `runAllTests` from the command line:
`continueRunning` is its return value, and `runTests`, `logPasses`,
`assertOnFail`, `randomSeed` govern whether and how the
`juce::UnitTestRunner` is invoked. -/
structure RunConfig where
  continueRunning : Bool
  runTests : Bool
  logPasses : Bool
  assertOnFail : Bool
  randomSeed : Int
deriving DecidableEq

/-- The body of `TestSuite::runAllTests` after tokenisation, with the
`JUCE_DEBUG` preprocessor branch as the parameter `juceDebug`.
In the source `assertOnFail` is initialised `true` and then overwritten in
both branches of the `#if JUCE_DEBUG`; only the final value is kept here. -/
def configOfCommands (juceDebug : Bool) (commands : List String) : RunConfig :=
  { continueRunning := (indexOfCI commands QuitAfterTests).isNone
    logPasses := (indexOfCI commands LogPasses).isSome
    randomSeed :=
      match indexOfCI commands RandomSeed with
      | some seedIndex => getLargeIntValue (commands.getD (seedIndex + 1) "")
      | none => 0
    runTests :=
      if juceDebug then (indexOfCI commands DisableTests).isNone
      else (indexOfCI commands EnableTests).isSome
    assertOnFail :=
      if juceDebug then (indexOfCI commands ContinueOnFail).isNone
      else (indexOfCI commands AssertOnFail).isSome }

/-- `runAllTests` with the `RUN_UNIT_TESTS` branch taken: tokenise the
command line and compute the run configuration. -/
def parseRunConfig (juceDebug : Bool) (commandLine : String) : RunConfig :=
  configOfCommands juceDebug (fromTokens commandLine)

/-- `TestSuite::runAllTests`: returns `continueRunning`. When
`RUN_UNIT_TESTS` is off the whole body is compiled out and the initial
value `true` is returned unconditionally. -/
def runAllTests (runUnitTests : Bool) (juceDebug : Bool) (commandLine : String) : Bool :=
  if runUnitTests then (parseRunConfig juceDebug commandLine).continueRunning else true

/-- Whether the `juce::UnitTestRunner` is constructed and invoked: only
when `RUN_UNIT_TESTS` is on and `runTests` came out true. -/
def testsExecuted (runUnitTests : Bool) (juceDebug : Bool) (commandLine : String) : Bool :=
  runUnitTests && (parseRunConfig juceDebug commandLine).runTests

/-! ## Helper lemmas -/

/-- An option is not-`none` exactly when it is `some`. -/
theorem isNone_false_iff (o : Option Nat) : o.isNone = false ↔ o.isSome = true := by
  cases o <;> simp

/-- `indexOfCI` finds a hit exactly when some element of the list matches
case-insensitively. -/
theorem indexOfCI_isSome_iff (l : List String) (s : String) :
    (indexOfCI l s).isSome = true ↔ ∃ t ∈ l, eqIgnoreCase t s = true := by
  induction l with
  | nil => simp [indexOfCI]
  | cons t ts ih =>
    by_cases h : eqIgnoreCase t s = true
    · simp [indexOfCI, h]
    · have hmap : ((indexOfCI ts s).map (fun i => i + 1)).isSome = (indexOfCI ts s).isSome := by
        cases indexOfCI ts s <;> rfl
      simp [indexOfCI, h, hmap, ih]

/-- The trace of a concatenation of operation lists is the concatenation of
the traces, the second half started from the intermediate suite state. -/
theorem run_append (xs ys : List Op) (s : TestSuite) :
    run (xs ++ ys) s
      = ((run ys (run xs s).1).1, (run xs s).2 ++ (run ys (run xs s).1).2) := by
  induction xs generalizing s with
  | nil =>
    cases h : run ys s with
    | mk a b => simp [run, h]
  | cons op xs ih =>
    simp [run, ih, List.append_assoc]

/-! ## The claims -/

/-- C1: for every suite and every pair (name, fn), `test name fn` first
records the start of the named subtest, then invokes the currently active
setup action, then invokes fn, then invokes the currently active teardown
action, each exactly once and in that exact order (here with setup, fn and
teardown observable as single distinct call events), and leaves the suite
state unchanged. -/
theorem C1_test_invocation_order (s : TestSuite) (testName : String) (a b c : Nat)
    (hs : s.onSetup = [Event.call a]) (ht : s.onTearDown = [Event.call c]) :
    test testName [Event.call b] s
      = (s, [Event.beginTest testName, Event.call a, Event.call b, Event.call c]) := by
  simp [test, hs, ht]

/-- Witness for C1 at a concrete suite and subtest. -/
theorem C1_test_invocation_order_witness :
    test "subtest" [Event.call 1]
        { name := "suite", category := "", onSetup := [Event.call 0], onTearDown := [Event.call 2] }
      = ({ name := "suite", category := "", onSetup := [Event.call 0], onTearDown := [Event.call 2] },
         [Event.beginTest "subtest", Event.call 0, Event.call 1, Event.call 2]) :=
  C1_test_invocation_order _ "subtest" 0 1 2 rfl rfl

/-- C2: the build-mode branch — debug-like build with no flags: runTests
and assertOnFail both true; adding `--continueOnFail` makes assertOnFail
false while runTests stays true; adding `--disableTests` makes runTests
false; release-like build with no flags: runTests false; adding
`--enableTests` makes runTests true; additionally adding `--assertOnFail`
makes assertOnFail true. -/
theorem C2_build_mode_flag_policy :
    (parseRunConfig true "").runTests = true
    ∧ (parseRunConfig true "").assertOnFail = true
    ∧ (parseRunConfig true "--continueOnFail").assertOnFail = false
    ∧ (parseRunConfig true "--continueOnFail").runTests = true
    ∧ (parseRunConfig true "--disableTests").runTests = false
    ∧ (parseRunConfig false "").runTests = false
    ∧ (parseRunConfig false "--enableTests").runTests = true
    ∧ (parseRunConfig false "--enableTests --assertOnFail").runTests = true
    ∧ (parseRunConfig false "--enableTests --assertOnFail").assertOnFail = true := by
  decide

/-- C3 refuted as stated: `runAllTests` (run-tests compiled in) returns
false on the command line `--QUITAFTERTESTS` even though the token
`--quitAfterTests` is not present, because the flag lookup is
case-insensitive. -/
theorem C3_quitAfterTests_counterexample :
    runAllTests true true "--QUITAFTERTESTS" = false
    ∧ "--quitAfterTests" ∉ fromTokens "--QUITAFTERTESTS" := by
  decide

/-- C3 (amended): with the run-tests capability compiled in, `runAllTests`
returns false exactly when a token matching `--quitAfterTests` up to
(ASCII) letter case is present; in particular parsing `--quitAfterTests`
yields continueRunning = false and parsing the empty command line yields
continueRunning = true. -/
theorem C3_quitAfterTests (juceDebug : Bool) (commandLine : String) :
    (runAllTests true juceDebug commandLine = false
      ↔ ∃ t ∈ fromTokens commandLine, eqIgnoreCase t QuitAfterTests = true)
    ∧ runAllTests true juceDebug "--quitAfterTests" = false
    ∧ runAllTests true juceDebug "" = true := by
  refine ⟨?_, rfl, rfl⟩
  have h : runAllTests true juceDebug commandLine
      = (indexOfCI (fromTokens commandLine) QuitAfterTests).isNone := rfl
  rw [h, isNone_false_iff, indexOfCI_isSome_iff]

/-- C4 refuted as stated: the token `--LOGPASSES`, which differs from the
flag `--logPasses` only in letter case, still takes effect (it turns
`logPasses` on), so flag matching is not case-sensitive exact matching. -/
theorem C4_case_sensitivity_counterexample :
    (parseRunConfig true "--LOGPASSES").logPasses = true
    ∧ "--logPasses" ∉ fromTokens "--LOGPASSES"
    ∧ (parseRunConfig true "").logPasses = false := by
  decide

/-- C4 (amended): a flag token takes effect exactly when some command-line
token matches the flag string up to (ASCII) letter case; a token differing
from the flag only in case still takes effect. -/
theorem C4_flags_case_insensitive (juceDebug : Bool) (commands : List String) :
    ((configOfCommands juceDebug commands).logPasses = true
      ↔ ∃ t ∈ commands, eqIgnoreCase t LogPasses = true)
    ∧ ((configOfCommands juceDebug commands).continueRunning = false
      ↔ ∃ t ∈ commands, eqIgnoreCase t QuitAfterTests = true)
    ∧ ((configOfCommands true commands).runTests = false
      ↔ ∃ t ∈ commands, eqIgnoreCase t DisableTests = true)
    ∧ (parseRunConfig juceDebug "--LOGPASSES").logPasses = true
    ∧ (parseRunConfig true "--DISABLETESTS").runTests = false := by
  refine ⟨?_, ?_, ?_, rfl, rfl⟩
  · exact indexOfCI_isSome_iff commands LogPasses
  · have h : (configOfCommands juceDebug commands).continueRunning
        = (indexOfCI commands QuitAfterTests).isNone := rfl
    rw [h, isNone_false_iff, indexOfCI_isSome_iff]
  · have h : (configOfCommands true commands).runTests
        = (indexOfCI commands DisableTests).isNone := rfl
    rw [h, isNone_false_iff, indexOfCI_isSome_iff]

/-- C5 refuted as stated: on the command line `--RANDOMTESTSEED 42` the
token `--randomTestSeed` is absent, yet randomSeed is 42 rather than 0,
because the flag lookup is case-insensitive. -/
theorem C5_randomSeed_counterexample :
    (parseRunConfig true "--RANDOMTESTSEED 42").randomSeed = 42
    ∧ "--randomTestSeed" ∉ fromTokens "--RANDOMTESTSEED 42" := by
  decide

/-- C5 (amended): if no token matches `--randomTestSeed` up to (ASCII)
letter case, randomSeed is 0; if some token matches, the token immediately
following the first match is parsed as a large integer; so
`--randomTestSeed 42` yields seed 42 while a missing or unparseable value
yields seed 0, and no error is signalled in either case. -/
theorem C5_randomSeed_policy (juceDebug : Bool) (commandLine : String) :
    (indexOfCI (fromTokens commandLine) RandomSeed = none
      → (parseRunConfig juceDebug commandLine).randomSeed = 0)
    ∧ (∀ i, indexOfCI (fromTokens commandLine) RandomSeed = some i
      → (parseRunConfig juceDebug commandLine).randomSeed
          = getLargeIntValue ((fromTokens commandLine).getD (i + 1) ""))
    ∧ (parseRunConfig juceDebug "--randomTestSeed 42").randomSeed = 42
    ∧ (parseRunConfig juceDebug "--randomTestSeed").randomSeed = 0
    ∧ (parseRunConfig juceDebug "--randomTestSeed xyz").randomSeed = 0 := by
  refine ⟨?_, ?_, rfl, rfl, rfl⟩
  · intro h
    simp [parseRunConfig, configOfCommands, h]
  · intro i h
    simp [parseRunConfig, configOfCommands, h]

/-- Witness for C5 at the command line `--randomTestSeed 42`. -/
theorem C5_randomSeed_policy_witness :
    (parseRunConfig true "--randomTestSeed 42").randomSeed
      = getLargeIntValue ((fromTokens "--randomTestSeed 42").getD (0 + 1) "") :=
  (C5_randomSeed_policy true "--randomTestSeed 42").2.1 0 (by decide)

/-- C6: `skipTest name fn` never invokes fn, never invokes the active setup
or teardown action (its trace contains no call event at all and is
independent of the handles), leaves the suite unchanged, and emits exactly
two log lines: a separator and a warning naming the suite and the subtest. -/
theorem C6_skipTest_behaviour (s : TestSuite) (testName : String) (fn : Fn) :
    skipTest testName fn s
      = (s, [Event.logMessage separatorLine,
             Event.logMessage ("WARNING: Skipping " ++ s.name ++ " / " ++ testName)])
    ∧ (∀ id, Event.call id ∉ (skipTest testName fn s).2)
    ∧ (skipTest testName fn s).2.length = 2 := by
  refine ⟨rfl, ?_, rfl⟩
  intro id
  simp [skipTest]

/-- C7: with the run-tests capability compiled out, `runAllTests` returns
true for every command line — including ones containing
`--quitAfterTests` — and never invokes the test runner. -/
theorem C7_disabled_run_is_noop (juceDebug : Bool) (commandLine : String) :
    runAllTests false juceDebug commandLine = true
    ∧ testsExecuted false juceDebug commandLine = false
    ∧ runAllTests false juceDebug "--quitAfterTests" = true :=
  ⟨rfl, rfl, rfl⟩

/-- C8: `setup fn` (resp. `tearDown fn`) replaces only the suite's setup
(resp. teardown) handle, leaving every other field unchanged, and emits no
events (fn is not invoked at replacement time); and in any operation
sequence the trace of the operations executed before the replacement is
unaffected by it. -/
theorem C8_setup_tearDown_replace_only (fn : Fn) (s : TestSuite) (ops rest : List Op) :
    (setup fn s).1 = { s with onSetup := fn }
    ∧ (setup fn s).2 = []
    ∧ (tearDown fn s).1 = { s with onTearDown := fn }
    ∧ (tearDown fn s).2 = []
    ∧ (run (ops ++ Op.setup fn :: rest) s).2
        = (run ops s).2 ++ (run (Op.setup fn :: rest) (run ops s).1).2
    ∧ (run (ops ++ Op.tearDown fn :: rest) s).2
        = (run ops s).2 ++ (run (Op.tearDown fn :: rest) (run ops s).1).2 := by
  refine ⟨rfl, rfl, rfl, rfl, ?_, ?_⟩
  · rw [run_append]
  · rw [run_append]

/-- C9: a freshly constructed suite holds exactly one setup handle and one
teardown handle, both defaulting to the no-op whose invocation emits no
events; running `test` on the default suite shows the default handles have
no observable effect; and after any operation sequence each of the two
handles is a single, well-defined (callable) value. -/
theorem C9_default_handles_noop (name category testName : String) (fn : Fn) (ops : List Op) :
    (mkTestSuite name category).onSetup = noOp
    ∧ (mkTestSuite name category).onTearDown = noOp
    ∧ noOp = ([] : List Event)
    ∧ test testName fn (mkTestSuite name category)
        = (mkTestSuite name category, Event.beginTest testName :: fn)
    ∧ (∃! f : Fn, (run ops (mkTestSuite name category)).1.onSetup = f)
    ∧ (∃! g : Fn, (run ops (mkTestSuite name category)).1.onTearDown = g) := by
  refine ⟨rfl, rfl, rfl, ?_, ⟨_, rfl, fun y hy => hy.symm⟩, ⟨_, rfl, fun y hy => hy.symm⟩⟩
  simp [test, mkTestSuite, noOp]

/-- C10 refuted as stated (with "first occurrence of --randomTestSeed" read
as the first occurrence of that exact token): on this command line the token
following the first exact occurrence of `--randomTestSeed` is the recognized
flag `--logPasses`, yet randomSeed is 42 rather than 0, because the
case-insensitive lookup matched the earlier `--RANDOMTESTSEED` and read the
value 42 after it. -/
theorem C10_first_occurrence_counterexample :
    fromTokens "--RANDOMTESTSEED 42 --randomTestSeed --logPasses"
      = ["--RANDOMTESTSEED", "42", "--randomTestSeed", "--logPasses"]
    ∧ (parseRunConfig true "--RANDOMTESTSEED 42 --randomTestSeed --logPasses").randomSeed = 42 := by
  decide

/-- C10 (amended): when the token following the first (case-insensitive) match of
`--randomTestSeed` is itself another recognized flag, randomSeed is 0 and
that following flag still takes its normal effect: the value position is
read but the token is not consumed or removed from the token list. -/
theorem C10_seed_value_not_consumed (juceDebug : Bool) (commands : List String) (i : Nat)
    (hidx : indexOfCI commands RandomSeed = some i)
    (hflag : commands.getD (i + 1) ""
      ∈ [QuitAfterTests, DisableTests, EnableTests, AssertOnFail, ContinueOnFail, LogPasses]) :
    (configOfCommands juceDebug commands).randomSeed = 0
    ∧ ((configOfCommands juceDebug commands).logPasses = true
      ↔ ∃ t ∈ commands, eqIgnoreCase t LogPasses = true)
    ∧ (parseRunConfig juceDebug "--randomTestSeed --logPasses").randomSeed = 0
    ∧ (parseRunConfig juceDebug "--randomTestSeed --logPasses").logPasses = true := by
  refine ⟨?_, ?_, rfl, rfl⟩
  · have h0 : getLargeIntValue (commands.getD (i + 1) "") = 0 := by
      simp only [List.mem_cons, List.not_mem_nil, or_false] at hflag
      rcases hflag with h | h | h | h | h | h <;> rw [h] <;> decide
    have hr : (configOfCommands juceDebug commands).randomSeed
        = getLargeIntValue (commands.getD (i + 1) "") := by
      simp [configOfCommands, hidx]
    rw [hr, h0]
  · exact indexOfCI_isSome_iff commands LogPasses

/-- Witness for C10 at the command list `["--randomTestSeed", "--logPasses"]`. -/
theorem C10_seed_value_not_consumed_witness :
    (configOfCommands true ["--randomTestSeed", "--logPasses"]).randomSeed = 0
    ∧ ((configOfCommands true ["--randomTestSeed", "--logPasses"]).logPasses = true
      ↔ ∃ t ∈ ["--randomTestSeed", "--logPasses"], eqIgnoreCase t LogPasses = true)
    ∧ (parseRunConfig true "--randomTestSeed --logPasses").randomSeed = 0
    ∧ (parseRunConfig true "--randomTestSeed --logPasses").logPasses = true :=
  C10_seed_value_not_consumed true ["--randomTestSeed", "--logPasses"] 0 (by decide) (by decide)

end TestSuiteSpec
